import Mathlib

/-!
Verification development for the Base Horizon single-page utility
(`src/app/base-horizon.ts`).

The TypeScript source is shallowly embedded: external collaborators
(the wallet provider, the RPC node, viem's address validator and unit
formatter) are parameters supplied as oracles, mirroring the spec's
"external interfaces" section.  Each query-layer operation additionally
returns a trace of the RPC calls it issued, so that claims about which
calls are made (and against which network) can be stated and proved.
Machine numbers (chain ids, block numbers, wei balances) are embedded as
`Nat`/`Int`; the JavaScript `NaN` that `parseInt` can produce is embedded
as `Option Int` with `none` standing for `NaN`.
-/

/-- Embeds the `Network` record type of the source (the `chain` field is
the external viem chain object, identified by its `chainId`, and is not
carried separately). -/
structure Network where
  chainId : Nat
  rpc : String
  explorer : String
  label : String
deriving Repr, DecidableEq

/-- `NETWORKS[0]` of the source: Base Mainnet. -/
def baseMainnet : Network :=
  { chainId := 8453
    rpc := "https://mainnet.base.org"
    explorer := "https://basescan.org"
    label := "Base Mainnet" }

/-- `NETWORKS[1]` of the source: Base Sepolia. -/
def baseSepolia : Network :=
  { chainId := 84532
    rpc := "https://sepolia.base.org"
    explorer := "https://sepolia.basescan.org"
    label := "Base Sepolia" }

/-- The static network registry `NETWORKS` of the source. -/
def NETWORKS : List Network := [baseMainnet, baseSepolia]

/-- The inline binary toggle of `btnToggle.onclick`:
`active.chainId === 84532 ? NETWORKS[0] : NETWORKS[1]`. -/
def otherNet (n : Network) : Network :=
  if n.chainId = 84532 then baseMainnet else baseSepolia

/-- Numeric value of one hexadecimal digit character, `none` if the
character is not a hexadecimal digit. -/
def hexDigitVal (c : Char) : Option Nat :=
  if '0' ≤ c ∧ c ≤ '9' then some (c.toNat - '0'.toNat)
  else if 'a' ≤ c ∧ c ≤ 'f' then some (c.toNat - 'a'.toNat + 10)
  else if 'A' ≤ c ∧ c ≤ 'F' then some (c.toNat - 'A'.toNat + 10)
  else none

/-- Longest prefix of hexadecimal digits, as digit values (JavaScript
`parseInt` stops at the first character that is not a digit of the
radix). -/
def hexDigitsPrefix : List Char → List Nat
  | [] => []
  | c :: cs =>
    match hexDigitVal c with
    | some v => v :: hexDigitsPrefix cs
    | none => []

/-- Strips one leading `0x` or `0X`, as JavaScript `parseInt` does when
the radix is 16. -/
def stripHexPrefix : List Char → List Char
  | '0' :: 'x' :: r => r
  | '0' :: 'X' :: r => r
  | cs => cs

/-- Embeds JavaScript `parseInt(s, 16)`: skip leading whitespace, an
optional sign, an optional `0x`/`0X` prefix, then the longest prefix of
hexadecimal digits; the result is `NaN` (here `none`) when that prefix
is empty. -/
def jsParseIntHex (s : String) : Option Int :=
  let cs := s.toList.dropWhile Char.isWhitespace
  let signed : Bool × List Char :=
    match cs with
    | '-' :: r => (true, r)
    | '+' :: r => (false, r)
    | r => (false, r)
  let ds := hexDigitsPrefix (stripHexPrefix signed.2)
  match ds with
  | [] => none
  | _ =>
    let v : Int := Int.ofNat (ds.foldl (fun a d => 16 * a + d) 0)
    some (if signed.1 then -v else v)

/-- The session record stored by a successful connect: the wallet
address and `parseInt(chainIdHex, 16)` (`none` embeds `NaN`). -/
structure Session where
  address : String
  chainId : Option Int
deriving Repr, DecidableEq

/-- The wallet collaborator, as observed through `provider.request`:
what `eth_requestAccounts` and `eth_chainId` settle to. -/
structure WalletProvider where
  requestAccounts : Except String (List String)
  requestChainId : Except String String

/-- Embeds `connectWallet`: request the accounts, take `accounts?.[0]`,
throw `No address returned from wallet` when that is absent or the empty
string (both falsy in `if (!address)`), then request the chain id and
return `{ address, chainId: parseInt(chainIdHex, 16) }`. -/
def connectWallet (w : WalletProvider) : Except String Session := do
  let accounts ← w.requestAccounts
  match accounts.head? with
  | none => .error "No address returned from wallet"
  | some address =>
    if address = "" then .error "No address returned from wallet"
    else do
      let chainIdHex ← w.requestChainId
      return { address := address, chainId := jsParseIntHex chainIdHex }

/-- One call issued to the RPC collaborator, recording the method and
the chain id of the network configuration the call targets. -/
inductive RpcCall where
  | blockNumber (chainId : Nat)
  | balance (chainId : Nat) (address : String)
  | block (chainId : Nat)
  | feesPerGas (chainId : Nat)
deriving Repr, DecidableEq

/-- Chain id targeted by an RPC call. -/
def RpcCall.chainOf : RpcCall → Nat
  | .blockNumber c => c
  | .balance c _ => c
  | .block c => c
  | .feesPerGas c => c

/-- Result of `getBlock()`: the fields the source reads. -/
structure BlockInfo where
  number : Nat
  timestamp : Nat
  gasUsed : Nat
deriving Repr, DecidableEq

/-- Result of `estimateFeesPerGas()`: both fee fields are optional. -/
structure Fees where
  maxFeePerGas : Option Nat
  maxPriorityFeePerGas : Option Nat
deriving Repr, DecidableEq

/-- The RPC collaborator, parameterized by the network configuration the
client was created with: what each read method settles to. -/
structure Rpc where
  getBlockNumber : Network → Except String Nat
  getBalance : Network → String → Except String Nat
  getBlock : Network → Except String BlockInfo
  estimateFeesPerGas : Network → Except String Fees

/-- Embeds `Promise.all` over two already-issued calls: resolves with
the pair when both resolve, rejects when either rejects. -/
def promiseAll2 {α β : Type} (p : Except String α) (q : Except String β) :
    Except String (α × β) :=
  match p, q with
  | .ok a, .ok b => .ok (a, b)
  | .error e, _ => .error e
  | .ok _, .error e => .error e

/-- Result of `readSummary`. -/
structure Summary where
  block : Nat
  balance : Nat
deriving Repr, DecidableEq

/-- Embeds `readSummary(address)`: create one client from the given
network snapshot, issue `getBlockNumber` and `getBalance(address)`
(both calls start before the join), and join them with `Promise.all`.
The second component is the trace of the RPC calls issued. -/
def readSummary (rpc : Rpc) (cfg : Network) (address : String) :
    Except String Summary × List RpcCall :=
  ((promiseAll2 (rpc.getBlockNumber cfg) (rpc.getBalance cfg address)).map
    (fun p => { block := p.1, balance := p.2 }),
   [RpcCall.blockNumber cfg.chainId, RpcCall.balance cfg.chainId address])

/-- Result of `readPulse`. -/
structure PulseSnapshot where
  number : Nat
  timestamp : Nat
  gasUsed : Nat
  maxFeePerGas : Option Nat
  maxPriorityFeePerGas : Option Nat
deriving Repr, DecidableEq

/-- Embeds `readPulse()`: create one client from the given network
snapshot, issue `getBlock` and `estimateFeesPerGas`, join them with
`Promise.all`, and project the snapshot fields. -/
def readPulse (rpc : Rpc) (cfg : Network) :
    Except String PulseSnapshot × List RpcCall :=
  ((promiseAll2 (rpc.getBlock cfg) (rpc.estimateFeesPerGas cfg)).map
    (fun p =>
      { number := p.1.number
        timestamp := p.1.timestamp
        gasUsed := p.1.gasUsed
        maxFeePerGas := p.2.maxFeePerGas
        maxPriorityFeePerGas := p.2.maxPriorityFeePerGas }),
   [RpcCall.block cfg.chainId, RpcCall.feesPerGas cfg.chainId])

/-- Embeds `readBalance(addr)`: validate the address with the external
validator first; on failure throw `Invalid address` without issuing any
RPC call, otherwise issue the single `getBalance` call against the
active network. -/
def readBalance (isAddr : String → Bool) (rpc : Rpc) (cfg : Network)
    (addr : String) : Except String Nat × List RpcCall :=
  if isAddr addr then (rpc.getBalance cfg addr, [RpcCall.balance cfg.chainId addr])
  else (.error "Invalid address", [])

/-- The mutable module state (`active`, `session`), the two disabled
flags of the dependent buttons, and the last rendered text. -/
structure AppState where
  active : Network
  session : Option Session
  pulseDisabled : Bool
  addrDisabled : Bool
  rendered : List String
deriving Repr, DecidableEq

/-- The state after `mount()` runs: `active = NETWORKS[1]`, no session,
dependent buttons disabled, ready text rendered. -/
def initState : AppState :=
  { active := baseSepolia
    session := none
    pulseDisabled := true
    addrDisabled := true
    rendered :=
      ["Ready.",
       "Active network: " ++ baseSepolia.label ++ " (chainId " ++
         toString baseSepolia.chainId ++ ")",
       "Connect wallet to begin."] }

/-- Reading of `active` at a given moment of an execution: a mid-flight
network toggle is modelled by letting the value of the `active` variable
vary with time.  `readSummary` and `readPulse` call `client()` exactly
once, synchronously at call start (time 0), so that is the only moment
at which they read `active`. -/
def readSummaryEnv (activeAt : Nat → Network) (rpc : Rpc) (address : String) :
    Except String Summary × List RpcCall :=
  readSummary rpc (activeAt 0) address

/-- Time-indexed variant of `readPulse`; see `readSummaryEnv`. -/
def readPulseEnv (activeAt : Nat → Network) (rpc : Rpc) :
    Except String PulseSnapshot × List RpcCall :=
  readPulse rpc (activeAt 0)

/-- Template-literal rendering of a possibly-`NaN` number (`none`
prints as `NaN`, as JavaScript string interpolation does). -/
def jsNumString : Option Int → String
  | some n => toString n
  | none => "NaN"

/-- Embeds `p.maxFeePerGas?.toString() ?? "n/a"`. -/
def optFeeString : Option Nat → String
  | some v => toString v
  | none => "n/a"

/-- Embeds `btnToggle.onclick`: flip `active` to the other registry
entry, clear the session, disable both dependent buttons, render the
switch notice.  Synchronous: no collaborator is involved and no step
can fail. -/
def btnToggleClick (st : AppState) : AppState :=
  let newActive := otherNet st.active
  { st with
    active := newActive
    session := none
    pulseDisabled := true
    addrDisabled := true
    rendered := ["Network switched to " ++ newActive.label ++ ". Reconnect wallet."] }

/-- Embeds `btnConnect.onclick`.  `fmt` is viem's `formatEther`.  The
source assigns `session = await connectWallet()` before awaiting
`readSummary(session.address)`, so the new session is stored as soon as
the wallet step succeeds, before the summary read settles; the button
enables and the success render happen only after the summary read also
succeeds.  Any thrown error is caught and rendered as `Error: <msg>`.
The second component is the trace of RPC calls issued. -/
def btnConnectClick (w : WalletProvider) (fmt : Nat → String) (rpc : Rpc)
    (st : AppState) : AppState × List RpcCall :=
  match connectWallet w with
  | .error e => ({ st with rendered := ["Error: " ++ e] }, [])
  | .ok sess =>
    match readSummary rpc st.active sess.address with
    | (.error e, tr) =>
      ({ st with session := some sess, rendered := ["Error: " ++ e] }, tr)
    | (.ok info, tr) =>
      ({ st with
         session := some sess
         pulseDisabled := false
         addrDisabled := false
         rendered :=
           ["Connected",
            "Network: " ++ st.active.label,
            "chainId: " ++ jsNumString sess.chainId,
            "Address: " ++ sess.address,
            "ETH balance: " ++ fmt info.balance ++ " ETH",
            "Latest block: " ++ toString info.block,
            "Explorer: " ++ st.active.explorer ++ "/address/" ++ sess.address] },
       tr)

/-- Embeds `btnPulse.onclick`: run `readPulse` against the active
network and render the snapshot, with `n/a` for an absent fee field;
any thrown error is caught and rendered as `Error: <msg>`. -/
def btnPulseClick (rpc : Rpc) (st : AppState) : AppState × List RpcCall :=
  match readPulse rpc st.active with
  | (.error e, tr) => ({ st with rendered := ["Error: " ++ e] }, tr)
  | (.ok p, tr) =>
    ({ st with
       rendered :=
         ["Horizon Pulse (read-only)",
          "Network: " ++ st.active.label,
          "Block: " ++ toString p.number,
          "Timestamp: " ++ toString p.timestamp,
          "Gas used: " ++ toString p.gasUsed,
          "maxFeePerGas: " ++ optFeeString p.maxFeePerGas,
          "maxPriorityFeePerGas: " ++ optFeeString p.maxPriorityFeePerGas,
          "Explorer: " ++ st.active.explorer ++ "/block/" ++ toString p.number] },
     tr)

/-- The part of `btnAddr.onclick` after the target address has been
resolved: run `readBalance` on it and render the result or the caught
error. -/
def balanceAction (isAddr : String → Bool) (fmt : Nat → String) (rpc : Rpc)
    (target : String) (st : AppState) : AppState × List RpcCall :=
  match readBalance isAddr rpc st.active target with
  | (.error e, tr) => ({ st with rendered := ["Error: " ++ e] }, tr)
  | (.ok bal, tr) =>
    ({ st with
       rendered :=
         ["Address Balance",
          "Network: " ++ st.active.label,
          "Address: " ++ target,
          "ETH balance: " ++ fmt bal ++ " ETH",
          "Explorer: " ++ st.active.explorer ++ "/address/" ++ target] },
     tr)

/-- Embeds `btnAddr.onclick`: `const target = addrInput.value ||
session?.address` — the explicit input wins whenever it is non-empty
(JavaScript `||` falls through only on the falsy empty string), else
the session's address is used; `if (!target)` throws `No address
provided` when the result is absent or empty.  `input` is the current
text of the address field. -/
def btnAddrClick (isAddr : String → Bool) (fmt : Nat → String) (rpc : Rpc)
    (input : String) (st : AppState) : AppState × List RpcCall :=
  let target? : Option String :=
    if input = "" then st.session.map (fun s => s.address) else some input
  match target? with
  | none => ({ st with rendered := ["Error: No address provided"] }, [])
  | some target =>
    if target = "" then ({ st with rendered := ["Error: No address provided"] }, [])
    else balanceAction isAddr fmt rpc target st

/-- A wallet that settles successfully with one account and the Base
Sepolia chain id. -/
def walletOkFixture : WalletProvider :=
  { requestAccounts := .ok ["0xabc"]
    requestChainId := .ok "0x14a34" }

/-- A wallet whose account request is declined by the user. -/
def walletDeclinedFixture : WalletProvider :=
  { requestAccounts := .error "user declined"
    requestChainId := .ok "0x14a34" }

/-- A wallet that settles with an account but a chain id string that is
not parseable hexadecimal. -/
def walletBadChainFixture : WalletProvider :=
  { requestAccounts := .ok ["0xabc"]
    requestChainId := .ok "zz" }

/-- An RPC collaborator on which every read settles successfully. -/
def rpcOkFixture : Rpc :=
  { getBlockNumber := fun _ => .ok 1000
    getBalance := fun _ _ => .ok 2500000000000000000
    getBlock := fun _ => .ok { number := 1000, timestamp := 1700000000, gasUsed := 21000 }
    estimateFeesPerGas := fun _ => .ok { maxFeePerGas := some 7, maxPriorityFeePerGas := some 1 } }

/-- An RPC collaborator whose block reads reject while the other reads
settle: used to exercise the one-of-two-rejects paths. -/
def rpcBlockFailsFixture : Rpc :=
  { getBlockNumber := fun _ => .error "boom"
    getBalance := fun _ _ => .ok 2500000000000000000
    getBlock := fun _ => .error "boom"
    estimateFeesPerGas := fun _ => .ok { maxFeePerGas := some 7, maxPriorityFeePerGas := some 1 } }

/-- An RPC collaborator that reports both fee fields absent. -/
def rpcNoFeesFixture : Rpc :=
  { getBlockNumber := fun _ => .ok 1000
    getBalance := fun _ _ => .ok 2500000000000000000
    getBlock := fun _ => .ok { number := 1000, timestamp := 1700000000, gasUsed := 21000 }
    estimateFeesPerGas := fun _ => .ok { maxFeePerGas := none, maxPriorityFeePerGas := none } }

/-- A stand-in for viem's `formatEther` in concrete executions; its
output is irrelevant to every property proved here. -/
def fmtFixture : Nat → String := fun n => toString n

/-- A stand-in for viem's `isAddress` in concrete executions: accepts
exactly the address the fixtures use. -/
def isAddrFixture : String → Bool := fun s => s = "0xabc"

/-- A time-indexed `active` that never changes: the no-toggle execution. -/
def envConst : Nat → Network := fun _ => baseSepolia

/-- A time-indexed `active` that is toggled to the other network at
every moment after call start. -/
def envToggledLater : Nat → Network := fun t => if t = 0 then baseSepolia else baseMainnet

/-- A state in which a connect has succeeded: session present and the
dependent buttons enabled. -/
def connectedStateFixture : AppState :=
  { initState with
    session := some { address := "0xabc", chainId := some 84532 }
    pulseDisabled := false
    addrDisabled := false }

theorem btnConnectClick_preserves_active (w : WalletProvider) (fmt : Nat → String)
    (rpc : Rpc) (st : AppState) : (btnConnectClick w fmt rpc st).1.active = st.active := by
  unfold btnConnectClick
  split
  · rfl
  · split <;> rfl

/-- C7: the binary toggle `otherNet` is its own inverse on the two
registry entries, and always yields the remaining registry entry,
distinct from its argument. -/
theorem otherNet_involutive :
    ∀ n, n ∈ NETWORKS →
      otherNet (otherNet n) = n ∧ otherNet n ∈ NETWORKS ∧ otherNet n ≠ n := by
  intro n hn
  have h : n = baseMainnet ∨ n = baseSepolia := by simpa [NETWORKS] using hn
  rcases h with h | h <;> subst h <;> refine ⟨by decide, by decide, by decide⟩

/-- Witness for C7 at the startup network, Base Sepolia. -/
theorem otherNet_involutive_witness :
    otherNet (otherNet baseSepolia) = baseSepolia ∧
    otherNet baseSepolia ∈ NETWORKS ∧ otherNet baseSepolia ≠ baseSepolia :=
  otherNet_involutive baseSepolia (by decide)

/-- C2: from any state whose active network is a registry entry (in
particular any state in which a session is present), the network toggle
leaves the session absent and moves the active network to the other
registry entry; composed with any connect action (successful or not)
performed first, the toggle still leaves the session absent and the
active network at the other registry entry, so no session/network
mismatch survives a toggle. -/
theorem toggle_clears_session :
    ∀ st : AppState, st.active ∈ NETWORKS →
      ((btnToggleClick st).session = none ∧
       (btnToggleClick st).active = otherNet st.active ∧
       otherNet st.active ∈ NETWORKS ∧ otherNet st.active ≠ st.active) ∧
      (∀ (w : WalletProvider) (fmt : Nat → String) (rpc : Rpc),
        (btnToggleClick (btnConnectClick w fmt rpc st).1).session = none ∧
        (btnToggleClick (btnConnectClick w fmt rpc st).1).active = otherNet st.active) := by
  intro st hmem
  have hcase : st.active = baseMainnet ∨ st.active = baseSepolia := by
    simpa [NETWORKS] using hmem
  refine ⟨⟨rfl, rfl, ?_, ?_⟩, ?_⟩
  · rcases hcase with h | h <;> rw [h] <;> decide
  · rcases hcase with h | h <;> rw [h] <;> decide
  · intro w fmt rpc
    refine ⟨rfl, ?_⟩
    show otherNet (btnConnectClick w fmt rpc st).1.active = otherNet st.active
    rw [btnConnectClick_preserves_active]

/-- Witness for C2: a successful connect from the startup state,
followed by a toggle, leaves the session absent and the active network
at Base Mainnet, the other registry entry. -/
theorem toggle_clears_session_witness :
    (btnToggleClick initState).session = none ∧
    (btnToggleClick initState).active = otherNet initState.active ∧
    (btnToggleClick (btnConnectClick walletOkFixture fmtFixture rpcOkFixture initState).1).session = none ∧
    (btnToggleClick (btnConnectClick walletOkFixture fmtFixture rpcOkFixture initState).1).active =
      otherNet initState.active := by
  obtain ⟨⟨h1, h2, _, _⟩, h3⟩ := toggle_clears_session initState (by decide)
  exact ⟨h1, h2, (h3 walletOkFixture fmtFixture rpcOkFixture).1,
         (h3 walletOkFixture fmtFixture rpcOkFixture).2⟩

/-- C1 counterexample: a connect action that fails at the summary-read
step (the wallet step succeeded, `getBlockNumber` rejects with `boom`)
renders the error line, yet the stored session is not unchanged — it
was `none` before the action and is the new wallet session after it. -/
theorem connect_failure_mutates_session_cex :
    (btnConnectClick walletOkFixture fmtFixture rpcBlockFailsFixture initState).1.rendered
      = ["Error: boom"] ∧
    (btnConnectClick walletOkFixture fmtFixture rpcBlockFailsFixture initState).1.session
      = some { address := "0xabc", chainId := some 84532 } ∧
    initState.session = none ∧
    (btnConnectClick walletOkFixture fmtFixture rpcBlockFailsFixture initState).1.session
      ≠ initState.session := by
  refine ⟨by decide, by decide, rfl, by decide⟩

/-- C1 amended: when the wallet step itself fails, the session (and the
active network and both button flags) is unchanged and the error line
is rendered; when the wallet step succeeds but the summary read fails,
the error line is rendered and the button flags and active network are
unchanged, but the session has already been set to the new
wallet-reported session — it is not unchanged. -/
theorem connect_failure_session_behavior :
    ∀ (w : WalletProvider) (fmt : Nat → String) (rpc : Rpc) (st : AppState),
      (∀ e, connectWallet w = .error e →
        (btnConnectClick w fmt rpc st).1.session = st.session ∧
        (btnConnectClick w fmt rpc st).1.active = st.active ∧
        (btnConnectClick w fmt rpc st).1.pulseDisabled = st.pulseDisabled ∧
        (btnConnectClick w fmt rpc st).1.addrDisabled = st.addrDisabled ∧
        (btnConnectClick w fmt rpc st).1.rendered = ["Error: " ++ e]) ∧
      (∀ s e, connectWallet w = .ok s →
        (readSummary rpc st.active s.address).1 = .error e →
        (btnConnectClick w fmt rpc st).1.session = some s ∧
        (btnConnectClick w fmt rpc st).1.active = st.active ∧
        (btnConnectClick w fmt rpc st).1.pulseDisabled = st.pulseDisabled ∧
        (btnConnectClick w fmt rpc st).1.addrDisabled = st.addrDisabled ∧
        (btnConnectClick w fmt rpc st).1.rendered = ["Error: " ++ e]) := by
  intro w fmt rpc st
  constructor
  · intro e he
    simp [btnConnectClick, he]
  · intro s e hw hs
    rcases hr : readSummary rpc st.active s.address with ⟨r, tr⟩
    rw [hr] at hs
    simp only at hs
    subst hs
    simp [btnConnectClick, hw, hr]

/-- Witness for C1 amended: the declined-wallet branch at the startup
state leaves the session unchanged and renders the error line. -/
theorem connect_failure_session_behavior_witness :
    (btnConnectClick walletDeclinedFixture fmtFixture rpcOkFixture initState).1.session
      = initState.session ∧
    (btnConnectClick walletDeclinedFixture fmtFixture rpcOkFixture initState).1.rendered
      = ["Error: user declined"] := by
  have h := (connect_failure_session_behavior walletDeclinedFixture fmtFixture rpcOkFixture
      initState).1 "user declined" rfl
  exact ⟨h.1, h.2.2.2.2⟩

/-- C3: `readSummary` and `readPulse` each issue exactly two read
calls; the result is a success exactly when both underlying calls
resolve, and then it is exactly the pair of the two resolved values (so
no partial or merged result can ever be returned); when the operation
fails, the failure is one of the two underlying rejections. -/
theorem query_all_or_nothing :
    ∀ (rpc : Rpc) (cfg : Network) (addr : String),
      ((readSummary rpc cfg addr).2.length = 2 ∧
       (∀ s, (readSummary rpc cfg addr).1 = .ok s ↔
         (rpc.getBlockNumber cfg = .ok s.block ∧ rpc.getBalance cfg addr = .ok s.balance)) ∧
       ((∃ e, rpc.getBlockNumber cfg = .error e) ∨ (∃ e, rpc.getBalance cfg addr = .error e) →
         ∃ e, (readSummary rpc cfg addr).1 = .error e) ∧
       (∀ e, (readSummary rpc cfg addr).1 = .error e →
         rpc.getBlockNumber cfg = .error e ∨ rpc.getBalance cfg addr = .error e)) ∧
      ((readPulse rpc cfg).2.length = 2 ∧
       (∀ p, (readPulse rpc cfg).1 = .ok p ↔
         (rpc.getBlock cfg = .ok ⟨p.number, p.timestamp, p.gasUsed⟩ ∧
          rpc.estimateFeesPerGas cfg = .ok ⟨p.maxFeePerGas, p.maxPriorityFeePerGas⟩)) ∧
       ((∃ e, rpc.getBlock cfg = .error e) ∨ (∃ e, rpc.estimateFeesPerGas cfg = .error e) →
         ∃ e, (readPulse rpc cfg).1 = .error e) ∧
       (∀ e, (readPulse rpc cfg).1 = .error e →
         rpc.getBlock cfg = .error e ∨ rpc.estimateFeesPerGas cfg = .error e)) := by
  intro rpc cfg addr
  constructor
  · refine ⟨rfl, ?_, ?_, ?_⟩
    · intro s
      cases s
      cases h1 : rpc.getBlockNumber cfg <;> cases h2 : rpc.getBalance cfg addr <;>
        simp [readSummary, promiseAll2, Except.map, h1, h2]
    · cases h1 : rpc.getBlockNumber cfg <;> cases h2 : rpc.getBalance cfg addr <;>
        simp [readSummary, promiseAll2, Except.map, h1, h2]
    · cases h1 : rpc.getBlockNumber cfg <;> cases h2 : rpc.getBalance cfg addr <;>
        simp [readSummary, promiseAll2, Except.map, h1, h2]
  · refine ⟨rfl, ?_, ?_, ?_⟩
    · intro p
      rcases p with ⟨pn, pt, pg, pf, pp⟩
      rcases h1 : rpc.getBlock cfg with e1 | b
      · simp [readPulse, promiseAll2, Except.map, h1]
      · rcases h2 : rpc.estimateFeesPerGas cfg with e2 | f
        · simp [readPulse, promiseAll2, Except.map, h1, h2]
        · rcases b with ⟨bn, bt, bg⟩
          rcases f with ⟨bf, bp⟩
          simp [readPulse, promiseAll2, Except.map, h1, h2, and_assoc]
    · cases h1 : rpc.getBlock cfg <;> cases h2 : rpc.estimateFeesPerGas cfg <;>
        simp [readPulse, promiseAll2, Except.map, h1, h2]
    · cases h1 : rpc.getBlock cfg <;> cases h2 : rpc.estimateFeesPerGas cfg <;>
        simp [readPulse, promiseAll2, Except.map, h1, h2]

/-- Witness for C3: with `getBlockNumber` and `getBlock` rejecting and
the other reads resolving, both operations fail, no success value
exists, and each trace still has exactly two calls. -/
theorem query_all_or_nothing_witness :
    (readSummary rpcBlockFailsFixture baseSepolia "0xabc").2.length = 2 ∧
    (∃ e, (readSummary rpcBlockFailsFixture baseSepolia "0xabc").1 = .error e) ∧
    (readPulse rpcBlockFailsFixture baseSepolia).2.length = 2 ∧
    (∃ e, (readPulse rpcBlockFailsFixture baseSepolia).1 = .error e) := by
  obtain ⟨⟨hl1, _, hf1, _⟩, ⟨hl2, _, hf2, _⟩⟩ :=
    query_all_or_nothing rpcBlockFailsFixture baseSepolia "0xabc"
  exact ⟨hl1, hf1 (Or.inl ⟨"boom", rfl⟩), hl2, hf2 (Or.inl ⟨"boom", rfl⟩)⟩

/-- C4: the active network configuration is read exactly once, at call
start (time 0): two executions whose `active` histories agree at call
start behave identically even if they diverge afterwards (a mid-flight
toggle is invisible), and every call in either trace targets the chain
that was active at call start. -/
theorem query_snapshot_consistency :
    ∀ (f g : Nat → Network) (rpc : Rpc) (addr : String),
      f 0 = g 0 →
      (readSummaryEnv f rpc addr = readSummaryEnv g rpc addr ∧
       readPulseEnv f rpc = readPulseEnv g rpc) ∧
      ((∀ c ∈ (readSummaryEnv f rpc addr).2, c.chainOf = (f 0).chainId) ∧
       (∀ c ∈ (readPulseEnv f rpc).2, c.chainOf = (f 0).chainId)) := by
  intro f g rpc addr h
  refine ⟨⟨?_, ?_⟩, ?_, ?_⟩
  · rw [readSummaryEnv, readSummaryEnv, h]
  · rw [readPulseEnv, readPulseEnv, h]
  · intro c hc
    simp only [readSummaryEnv, readSummary, List.mem_cons, List.mem_singleton,
      List.not_mem_nil, or_false] at hc
    rcases hc with rfl | rfl <;> rfl
  · intro c hc
    simp only [readPulseEnv, readPulse, List.mem_cons, List.mem_singleton,
      List.not_mem_nil, or_false] at hc
    rcases hc with rfl | rfl <;> rfl

/-- Witness for C4: an execution whose active network is toggled right
after call start gives exactly the same summary and pulse results as
the execution with no toggle at all. -/
theorem query_snapshot_consistency_witness :
    envConst 0 = envToggledLater 0 ∧
    readSummaryEnv envConst rpcOkFixture "0xabc" =
      readSummaryEnv envToggledLater rpcOkFixture "0xabc" ∧
    readPulseEnv envConst rpcOkFixture = readPulseEnv envToggledLater rpcOkFixture := by
  have h := query_snapshot_consistency envConst envToggledLater rpcOkFixture "0xabc" rfl
  exact ⟨rfl, h.1.1, h.1.2⟩

/-- C5: `readBalance` on an address the validator rejects fails with
`Invalid address` and issues no RPC call at all; on an address the
validator accepts it issues exactly the one `getBalance` call, against
the active network's chain, and returns whatever that call settles
to. -/
theorem readBalance_validates_first :
    ∀ (v : String → Bool) (rpc : Rpc) (cfg : Network) (addr : String),
      (v addr = false →
        (readBalance v rpc cfg addr).1 = .error "Invalid address" ∧
        (readBalance v rpc cfg addr).2 = []) ∧
      (v addr = true →
        (readBalance v rpc cfg addr).1 = rpc.getBalance cfg addr ∧
        (readBalance v rpc cfg addr).2 = [RpcCall.balance cfg.chainId addr]) := by
  intro v rpc cfg addr
  constructor <;> intro h <;> simp [readBalance, h]

/-- Witness for C5: the fixture validator rejects `nope` (no call in
the trace, `Invalid address` failure) and accepts `0xabc` (exactly one
`getBalance` call against chain 84532). -/
theorem readBalance_validates_first_witness :
    (readBalance isAddrFixture rpcOkFixture baseSepolia "nope").1 = .error "Invalid address" ∧
    (readBalance isAddrFixture rpcOkFixture baseSepolia "nope").2 = [] ∧
    (readBalance isAddrFixture rpcOkFixture baseSepolia "0xabc").2 =
      [RpcCall.balance 84532 "0xabc"] := by
  obtain ⟨h1, h2⟩ :=
    (readBalance_validates_first isAddrFixture rpcOkFixture baseSepolia "nope").1 (by decide)
  obtain ⟨_, h3⟩ :=
    (readBalance_validates_first isAddrFixture rpcOkFixture baseSepolia "0xabc").2 (by decide)
  exact ⟨h1, h2, h3⟩

/-- C6: the check-balance action targets the explicit input address
whenever the input field is non-empty, falls back to the connected
session's address when the field is empty, and when the field is empty
and no session exists it fails with the `No address provided`
(MissingAddress) error, issuing no RPC call and changing no state other
than the rendered text. -/
theorem check_balance_target_resolution :
    ∀ (v : String → Bool) (fmt : Nat → String) (rpc : Rpc) (input : String) (st : AppState),
      (input ≠ "" →
        btnAddrClick v fmt rpc input st = balanceAction v fmt rpc input st) ∧
      (input = "" → ∀ s, st.session = some s → s.address ≠ "" →
        btnAddrClick v fmt rpc input st = balanceAction v fmt rpc s.address st) ∧
      (input = "" → st.session = none →
        (btnAddrClick v fmt rpc input st).1.rendered = ["Error: No address provided"] ∧
        (btnAddrClick v fmt rpc input st).2 = [] ∧
        (btnAddrClick v fmt rpc input st).1.session = st.session ∧
        (btnAddrClick v fmt rpc input st).1.active = st.active) := by
  intro v fmt rpc input st
  refine ⟨?_, ?_, ?_⟩
  · intro h
    simp [btnAddrClick, h]
  · intro h s hs ha
    simp [btnAddrClick, h, hs, ha]
  · intro h hs
    simp [btnAddrClick, h, hs]

/-- Witness for C6: a non-empty input is used as the target, and with
an empty input and no session the action fails with `No address
provided` and issues no RPC call. -/
theorem check_balance_target_resolution_witness :
    btnAddrClick isAddrFixture fmtFixture rpcOkFixture "0xabc" initState =
      balanceAction isAddrFixture fmtFixture rpcOkFixture "0xabc" initState ∧
    (btnAddrClick isAddrFixture fmtFixture rpcOkFixture "" initState).1.rendered =
      ["Error: No address provided"] ∧
    (btnAddrClick isAddrFixture fmtFixture rpcOkFixture "" initState).2 = [] := by
  have h1 := (check_balance_target_resolution isAddrFixture fmtFixture rpcOkFixture
      "0xabc" initState).1 (by decide)
  have h2 := (check_balance_target_resolution isAddrFixture fmtFixture rpcOkFixture
      "" initState).2.2 rfl rfl
  exact ⟨h1, h2.1, h2.2.1⟩

/-- C9: a non-empty explicit input is always the target — when the
validator rejects it, the action fails with `Invalid address`, makes no
RPC call and never falls back to the session's address, whatever
session is present; an empty input silently falls back to the session's
address. -/
theorem explicit_address_never_falls_back :
    ∀ (v : String → Bool) (fmt : Nat → String) (rpc : Rpc) (input : String) (st : AppState),
      (input ≠ "" → v input = false →
        (btnAddrClick v fmt rpc input st).1.rendered = ["Error: Invalid address"] ∧
        (btnAddrClick v fmt rpc input st).2 = []) ∧
      (input = "" → ∀ s, st.session = some s → s.address ≠ "" →
        btnAddrClick v fmt rpc "" st = balanceAction v fmt rpc s.address st) := by
  intro v fmt rpc input st
  constructor
  · intro h hv
    simp [btnAddrClick, balanceAction, readBalance, h, hv]
  · intro h s hs ha
    subst h
    simp [btnAddrClick, hs, ha]

/-- Witness for C9: with a valid session present, the invalid non-empty
input `bogus` is used (the action fails with `Invalid address`, no RPC
call), and with an empty input the same state falls back to the
session's address. -/
theorem explicit_address_never_falls_back_witness :
    (btnAddrClick isAddrFixture fmtFixture rpcOkFixture "bogus" connectedStateFixture).1.rendered =
      ["Error: Invalid address"] ∧
    (btnAddrClick isAddrFixture fmtFixture rpcOkFixture "bogus" connectedStateFixture).2 = [] ∧
    btnAddrClick isAddrFixture fmtFixture rpcOkFixture "" connectedStateFixture =
      balanceAction isAddrFixture fmtFixture rpcOkFixture "0xabc" connectedStateFixture := by
  have h1 := (explicit_address_never_falls_back isAddrFixture fmtFixture rpcOkFixture
      "bogus" connectedStateFixture).1 (by decide) (by decide)
  have h2 := (explicit_address_never_falls_back isAddrFixture fmtFixture rpcOkFixture
      "" connectedStateFixture).2 rfl
      { address := "0xabc", chainId := some 84532 } rfl (by decide)
  exact ⟨h1.1, h1.2, h2⟩

/-- C8: when `getBlock` resolves and the fee-estimate collaborator
resolves with both fee fields absent, the pulse action renders the full
success snapshot with the literal `n/a` on both fee lines instead of
failing. -/
theorem pulse_renders_na_for_absent_fees :
    ∀ (rpc : Rpc) (st : AppState) (b : BlockInfo),
      rpc.getBlock st.active = .ok b →
      rpc.estimateFeesPerGas st.active = .ok { maxFeePerGas := none, maxPriorityFeePerGas := none } →
      (btnPulseClick rpc st).1.rendered =
        ["Horizon Pulse (read-only)",
         "Network: " ++ st.active.label,
         "Block: " ++ toString b.number,
         "Timestamp: " ++ toString b.timestamp,
         "Gas used: " ++ toString b.gasUsed,
         "maxFeePerGas: n/a",
         "maxPriorityFeePerGas: n/a",
         "Explorer: " ++ st.active.explorer ++ "/block/" ++ toString b.number] := by
  intro rpc st b h1 h2
  simp [btnPulseClick, readPulse, promiseAll2, Except.map, h1, h2, optFeeString]

/-- Witness for C8 on the fixture whose fee estimate reports both
fields absent. -/
theorem pulse_renders_na_for_absent_fees_witness :
    (btnPulseClick rpcNoFeesFixture initState).1.rendered =
      ["Horizon Pulse (read-only)",
       "Network: Base Sepolia",
       "Block: 1000",
       "Timestamp: 1700000000",
       "Gas used: 21000",
       "maxFeePerGas: n/a",
       "maxPriorityFeePerGas: n/a",
       "Explorer: https://sepolia.basescan.org/block/1000"] := by
  have h := pulse_renders_na_for_absent_fees rpcNoFeesFixture initState
      { number := 1000, timestamp := 1700000000, gasUsed := 21000 } rfl rfl
  exact h.trans (by decide)

/-- C10: whenever the wallet resolves the account request with a first
account that is a non-empty address, the connect succeeds no matter
what chain id string the wallet then returns: the stored chain id is
exactly `parseInt(chainIdHex, 16)` with no validation, which is `NaN`
(embedded as `none`) whenever the string has no parseable hexadecimal
prefix. -/
theorem connect_stores_unvalidated_chain_id :
    ∀ (accs : List String) (a chainIdHex : String),
      accs.head? = some a → a ≠ "" →
      connectWallet { requestAccounts := .ok accs, requestChainId := .ok chainIdHex } =
        .ok { address := a, chainId := jsParseIntHex chainIdHex } := by
  intro accs a chainIdHex hh ha
  cases accs with
  | nil => simp at hh
  | cons a0 rest =>
    simp only [List.head?, Option.some.injEq] at hh
    subst hh
    show (if a0 = "" then (Except.error "No address returned from wallet" : Except String Session)
          else Except.ok { address := a0, chainId := jsParseIntHex chainIdHex }) =
        Except.ok { address := a0, chainId := jsParseIntHex chainIdHex }
    rw [if_neg ha]

/-- Witness for C10: the wallet returns the unparseable chain id string
`zz`, yet connect succeeds and stores `NaN` (`none`) as the session
chain id. -/
theorem connect_stores_unvalidated_chain_id_witness :
    connectWallet walletBadChainFixture = .ok { address := "0xabc", chainId := none } := by
  have h := connect_stores_unvalidated_chain_id ["0xabc"] "0xabc" "zz" rfl (by decide)
  have hz : jsParseIntHex "zz" = none := by decide
  rw [hz] at h
  exact h
